import Mathlib

/-!
Verification of the request optimization layer of the process_poc dashboard
client (`src/client/src/services/api.js` and the `requestOptimizer` module it
delegates to).  The optimizer itself (`src/client/src/utils/requestOptimizer.js`)
is not among the provided sources — only its callers in `api.js` are — so its
key builder, cache store, in-flight registry, debounce registry and stats are
modelled from the specification (spec §4), while the chat debounce key and the
axios response interceptor are embedded directly from `api.js`.

The runtime is a single-threaded event loop, so each asynchronous operation is
split into its synchronous phases: `optStartKey` is the synchronous prefix of
`optimizedRequest` (cache read, in-flight acquire, transport dispatch),
`optSettle` is the continuation run when the transport settles, `debounceCall`
is a call to `debouncedRequest`, and `debounceFire` is the timer callback.
Ghost fields (`transportLog`, `execLog`, `settled`) record observable events so
that "exactly one transport call" and "both callers receive the same result"
are stated as facts about the final state.
-/

/-- Primitive parameter values (spec §4.1: parameter values are primitives or
null/absent; absent and null entries are omitted from the key). -/
inductive Prim where
  | str (s : String)
  | int (n : Int)
  | bool (b : Bool)
deriving DecidableEq

/-- Serialization of a primitive value used inside a cache key. -/
def Prim.toStr : Prim → String
  | .str s => s
  | .int n => toString n
  | .bool b => toString b

/-- Ordering of serialized parameter pairs by parameter name. -/
def keyLe (a b : String × Prim) : Prop := a.1 ≤ b.1

/-- Strict ordering of serialized parameter pairs by parameter name. -/
def keyLt (a b : String × Prim) : Prop := a.1 < b.1

instance : DecidableRel keyLe := fun a b => inferInstanceAs (Decidable (a.1 ≤ b.1))

instance : IsTotal (String × Prim) keyLe := ⟨fun a b => le_total a.1 b.1⟩

instance : IsTrans (String × Prim) keyLe := ⟨fun _ _ _ h h' => le_trans h h'⟩

instance : IsAntisymm (String × Prim) keyLt := ⟨fun _ _ h h' => absurd h' (lt_asymm h)⟩

/-- The parameter entries actually present: null/absent values are dropped. -/
def presentParams (params : List (String × Option Prim)) : List (String × Prim) :=
  params.filterMap (fun p => p.2.map (fun v => (p.1, v)))

/-- Modelled from the spec: §4.1 Key Builder of `requestOptimizer`
(`src/client/src/utils/requestOptimizer.js` is not among the provided sources;
only its callers in `api.js` are).  Normalizes by sorting parameter names
lexicographically, omitting null/absent values, and serializing the
`name=value` pairs joined deterministically after the endpoint. -/
def buildKey (endpoint : String) (params : List (String × Option Prim)) : String :=
  let sorted := (presentParams params).insertionSort keyLe
  endpoint ++ "?" ++ String.intercalate "&" (sorted.map (fun p => p.1 ++ "=" ++ p.2.toStr))

/-- A cache entry: value, write time and time-to-live (spec §3 CacheEntry). -/
structure CacheEntry where
  value : Nat
  storedAt : Nat
  ttl : Nat
deriving DecidableEq

/-- Error taxonomy of the optimizer (spec §6/§7): transport-level failure,
timeout, or a server response indicating failure. -/
inductive ApiError where
  | network
  | timeout
  | server (status : Nat) (message : String)
deriving DecidableEq

/-- Outcome of a transport call or a debounced function. -/
abbrev CallResult := Except ApiError Nat

/-- Operational statistics (spec §3 Stats). -/
structure Stats where
  hits : Nat
  misses : Nat
  dedupAttaches : Nat
  debounceCoalesces : Nat
  errors : Nat
deriving DecidableEq

/-- The all-zero statistics snapshot. -/
def Stats.zero : Stats := ⟨0, 0, 0, 0, 0⟩

/-- An in-flight registry entry: the shared outcome handle every concurrent
caller for the key attaches to (spec §3 InFlightEntry). -/
structure InflightEntry where
  outcomeId : Nat
deriving DecidableEq

/-- A debounce registry entry: pending timer, latest recorded invocation and
the shared outcome handle (spec §3 DebounceEntry). -/
structure DebounceEntry where
  timerId : Nat
  latestFn : Nat
  outcomeId : Nat
deriving DecidableEq

/-- Association-list lookup by key. -/
def alookup {κ α : Type} [DecidableEq κ] : List (κ × α) → κ → Option α
  | [], _ => none
  | p :: rest, k => if p.1 = k then some p.2 else alookup rest k

/-- Association-list removal of a key. -/
def aremove {κ α : Type} [DecidableEq κ] (l : List (κ × α)) (k : κ) : List (κ × α) :=
  l.filter (fun p => decide (p.1 ≠ k))

/-- Association-list insertion, replacing any existing binding (spec §3:
cache entries are never mutated in place, replaced wholesale). -/
def ainsert {κ α : Type} [DecidableEq κ] (l : List (κ × α)) (k : κ) (v : α) :
    List (κ × α) :=
  (k, v) :: aremove l k

/-- The full state of the optimizer, with ghost event logs: `transportLog`
records every dispatched transport call (by key, in order), `execLog` records
every executed debounced function, and `settled` records each settled shared
outcome with its result. -/
structure OptState where
  cache : List (String × CacheEntry)
  inflight : List (String × InflightEntry)
  debounce : List (String × DebounceEntry)
  stats : Stats
  nextId : Nat
  transportLog : List String
  execLog : List Nat
  settled : List (Nat × CallResult)

/-- The state of a freshly constructed optimizer. -/
def initState : OptState := ⟨[], [], [], Stats.zero, 0, [], [], []⟩

/-- A cache entry is valid iff `now < storedAt + ttl` (spec §3 CacheEntry). -/
def cacheValid (e : CacheEntry) (now : Nat) : Bool :=
  decide (now < e.storedAt + e.ttl)

/-- Modelled from the spec: §4.2 `get` of the Cache Store of `requestOptimizer`
(source file absent).  Returns the stored value only if unexpired; an expired
entry is treated as absent and lazily evicted on read. -/
def cacheGet (cache : List (String × CacheEntry)) (key : String) (now : Nat) :
    Option Nat × List (String × CacheEntry) :=
  match alookup cache key with
  | none => (none, cache)
  | some e => if cacheValid e now then (some e.value, cache) else (none, aremove cache key)

/-- Modelled from the spec: §4.2 `set` of the Cache Store of `requestOptimizer`
(source file absent).  Stores the value with `storedAt = now`, overwriting any
existing entry unconditionally. -/
def cacheSet (cache : List (String × CacheEntry)) (key : String) (v ttl now : Nat) :
    List (String × CacheEntry) :=
  ainsert cache key ⟨v, now, ttl⟩

/-- Modelled from the spec: §4.2 pattern matching of `invalidate` of
`requestOptimizer` (source file absent): exact string match, or prefix match
for a trailing-wildcard pattern such as \x22foo*\x22. -/
def patternMatches (pat key : String) : Bool :=
  if pat.toList.getLast? = some '*' then
    List.isPrefixOf pat.toList.dropLast key.toList
  else pat == key

/-- Modelled from the spec: §4.2 `invalidate` of the Cache Store of
`requestOptimizer` (source file absent).  Removes every entry whose key
matches the pattern; no error if nothing matches. -/
def cacheInvalidate (cache : List (String × CacheEntry)) (pat : String) :
    List (String × CacheEntry) :=
  cache.filter (fun kv => !(patternMatches pat kv.1))

/-- Result of the synchronous prefix of `optimizedRequest`: a cache hit
returning immediately, an attachment to an existing in-flight outcome, or a
newly issued transport call registered in flight. -/
inductive StartResult where
  | cached (v : Nat)
  | attached (outcomeId : Nat)
  | issued (outcomeId : Nat)
deriving DecidableEq

/-- Modelled from the spec: §4.3 `acquire` of the In-Flight Registry of
`requestOptimizer` (source file absent).  If no entry exists for the key a new
one is created, the transport call dispatched and logged; otherwise the caller
attaches to the same outcome handle and the dedup stat is recorded. -/
def acquireKey (key : String) (st : OptState) : StartResult × OptState :=
  match alookup st.inflight key with
  | some e =>
      (.attached e.outcomeId,
       { st with stats := { st.stats with dedupAttaches := st.stats.dedupAttaches + 1 } })
  | none =>
      (.issued st.nextId,
       { st with inflight := (key, ⟨st.nextId⟩) :: st.inflight,
                 nextId := st.nextId + 1,
                 transportLog := st.transportLog ++ [key] })

/-- Modelled from the spec: §4.3 composition of `optimizedRequest` of
`requestOptimizer` (source file absent), synchronous prefix for an
already-built key: unless `skipCache`, consult the Cache Store (hit → return
value and record a hit; miss → record a miss), then acquire from the In-Flight
Registry. -/
def optStartKey (key : String) (skipCache : Bool) (now : Nat) (st : OptState) :
    StartResult × OptState :=
  if skipCache then acquireKey key st
  else
    match cacheGet st.cache key now with
    | (some v, cache') =>
        (.cached v,
         { st with cache := cache',
                   stats := { st.stats with hits := st.stats.hits + 1 } })
    | (none, cache') =>
        acquireKey key
          { st with cache := cache',
                    stats := { st.stats with misses := st.stats.misses + 1 } }

/-- Modelled from the spec: §4.3 step 1 of `optimizedRequest` of
`requestOptimizer` (source file absent): the key is built from endpoint and
params, then the synchronous prefix runs on it. -/
def optStart (endpoint : String) (params : List (String × Option Prim))
    (skipCache : Bool) (now : Nat) (st : OptState) : StartResult × OptState :=
  optStartKey (buildKey endpoint params) skipCache now st

/-- Modelled from the spec: §4.3 settlement of `optimizedRequest` of
`requestOptimizer` (source file absent).  When the transport call for a key
settles, the shared outcome is resolved for all attached waiters and the
in-flight entry is removed first; then on success the value is written to the
Cache Store unless `skipCache`; on failure the error stat is recorded and the
cache is left untouched. -/
def optSettle (key : String) (skipCache : Bool) (ttl : Nat) (res : CallResult)
    (now : Nat) (st : OptState) : OptState :=
  match alookup st.inflight key with
  | none => st
  | some e =>
      let st1 := { st with inflight := aremove st.inflight key,
                           settled := (e.outcomeId, res) :: st.settled }
      match res with
      | .ok v =>
          if skipCache then st1
          else { st1 with cache := cacheSet st1.cache key v ttl now }
      | .error _ =>
          { st1 with stats := { st1.stats with errors := st1.stats.errors + 1 } }

/-- Modelled from the spec: §4.4 `debouncedRequest` of `requestOptimizer`
(source file absent).  Records `fn` as the latest invocation for the key; an
existing entry keeps its shared outcome but has its timer cancelled and
restarted (coalesce, recorded in stats); otherwise a fresh entry with a fresh
shared outcome is created.  `delayMs` only determines when the timer fires,
which is the separate event `debounceFire`. -/
def debounceCall (key : String) (fn : Nat) (_delayMs : Nat) (st : OptState) :
    Nat × OptState :=
  match alookup st.debounce key with
  | some e =>
      (e.outcomeId,
       { st with debounce := ainsert st.debounce key ⟨st.nextId, fn, e.outcomeId⟩,
                 nextId := st.nextId + 1,
                 stats := { st.stats with
                              debounceCoalesces := st.stats.debounceCoalesces + 1 } })
  | none =>
      (st.nextId,
       { st with debounce := (key, ⟨st.nextId + 1, fn, st.nextId⟩) :: st.debounce,
                 nextId := st.nextId + 2 })

/-- Modelled from the spec: §4.4 timer expiry of the Debounce Registry of
`requestOptimizer` (source file absent).  Executes the most recently recorded
function exactly once, settles the shared outcome for every attached caller
with its result or error, then clears the entry.  `fnResult` gives each
function's eventual result. -/
def debounceFire (key : String) (fnResult : Nat → CallResult) (st : OptState) :
    OptState :=
  match alookup st.debounce key with
  | none => st
  | some e =>
      { st with debounce := aremove st.debounce key,
                execLog := st.execLog ++ [e.latestFn],
                settled := (e.outcomeId, fnResult e.latestFn) :: st.settled }

/-- Modelled from the spec: §4.5 `invalidateCache` of `requestOptimizer`
(source file absent): delegates to the Cache Store and touches nothing else. -/
def invalidateCache (pat : String) (st : OptState) : OptState :=
  { st with cache := cacheInvalidate st.cache pat }

/-- Modelled from the spec: §4.5 `reset` of `requestOptimizer` (source file
absent): clears Cache Store, In-Flight Registry and Debounce Registry and
zeroes the stats. -/
def reset (st : OptState) : OptState :=
  { st with cache := [], inflight := [], debounce := [], stats := Stats.zero }

/-- Modelled from the spec: §4.5 `getStats` of `requestOptimizer` (source file
absent): a read-only snapshot of the counters. -/
def getStats (st : OptState) : Stats := st.stats

/-- The result a waiter holding a shared outcome handle observes once that
outcome has settled. -/
def outcomeResult (st : OptState) (oid : Nat) : Option CallResult :=
  alookup st.settled oid

/-- From `src/client/src/services/api.js` (ApiService.sendChatMessage,
lines 263-276): the debounce key used for chat messages, built from the
session and user only — the message text is not part of the key. -/
def chatDebounceKey (sessionId userId : String) : String :=
  "chat_" ++ sessionId ++ "_" ++ userId

/-- From `src/client/src/services/api.js` (ApiService.sendChatMessage): a chat
message is sent through `debouncedRequest` with key `chat_SESSION_USER` and a
300 ms window; the function recorded for the key is the closure posting the
message, identified here by the message itself. -/
def sendChatMessage (message : Nat) (sessionId userId : String) (st : OptState) :
    Nat × OptState :=
  debounceCall (chatDebounceKey sessionId userId) message 300 st

/-- The classification of a failure of `optimizedRequest` (spec §6/§7): every
failure is a network error, a timeout, or a server error. -/
def errorClass : ApiError → String
  | .network => "network"
  | .timeout => "timeout"
  | .server _ _ => "server"

/-! ### Association-list lemmas -/

theorem alookup_cons {κ α : Type} [DecidableEq κ] (p : κ × α) (l : List (κ × α)) (k : κ) :
    alookup (p :: l) k = if p.1 = k then some p.2 else alookup l k := rfl

theorem alookup_aremove {κ α : Type} [DecidableEq κ] (l : List (κ × α)) (k k' : κ) :
    alookup (aremove l k) k' = if k' = k then none else alookup l k' := by
  induction l with
  | nil => simp [aremove, alookup]
  | cons p rest ih =>
    by_cases hpk : p.1 = k
    · have hf : aremove (p :: rest) k = aremove rest k := by
        simp [aremove, List.filter_cons, hpk]
      rw [hf, ih]
      by_cases hk : k' = k
      · simp [hk]
      · have hpk' : p.1 ≠ k' := fun h => hk (h.symm.trans hpk)
        simp [hk, alookup_cons, hpk']
    · have hf : aremove (p :: rest) k = p :: aremove rest k := by
        simp [aremove, List.filter_cons, hpk]
      rw [hf, alookup_cons, alookup_cons, ih]
      by_cases hpk' : p.1 = k'
      · have hk : ¬ k' = k := fun h => hpk (hpk'.trans h)
        simp [hpk', hk]
      · simp [hpk']

theorem alookup_ainsert {κ α : Type} [DecidableEq κ] (l : List (κ × α)) (k k' : κ) (v : α) :
    alookup (ainsert l k v) k' = if k = k' then some v else alookup l k' := by
  simp [ainsert, alookup_cons, alookup_aremove]
  by_cases h : k = k'
  · simp [h]
  · simp [h, Ne.symm h]

theorem alookup_filter_key {α : Type} (f : String → Bool) (l : List (String × α)) (k : String) :
    alookup (l.filter (fun kv => !(f kv.1))) k = if f k then none else alookup l k := by
  induction l with
  | nil => simp [alookup]
  | cons p rest ih =>
    by_cases hp : f p.1
    · have hf : (p :: rest).filter (fun kv => !(f kv.1)) = rest.filter (fun kv => !(f kv.1)) := by
        simp [List.filter_cons, hp]
      rw [hf, ih]
      by_cases hk : f k
      · simp [hk]
      · have hpk : p.1 ≠ k := fun h => hk (h ▸ hp)
        simp [hk, alookup_cons, hpk]
    · have hf : (p :: rest).filter (fun kv => !(f kv.1)) =
          p :: rest.filter (fun kv => !(f kv.1)) := by
        simp [List.filter_cons, hp]
      rw [hf, alookup_cons, alookup_cons, ih]
      by_cases hpk : p.1 = k
      · have hk : ¬ f k = true := by
          rw [← hpk]
          exact hp
        simp [hpk, hk]
      · simp [hpk]

/-! ### Evaluation lemmas for the optimizer operations -/

theorem acquireKey_new (key : String) (st : OptState)
    (hno : alookup st.inflight key = none) :
    acquireKey key st =
      (.issued st.nextId,
       { st with inflight := (key, ⟨st.nextId⟩) :: st.inflight,
                 nextId := st.nextId + 1,
                 transportLog := st.transportLog ++ [key] }) := by
  simp [acquireKey, hno]

theorem acquireKey_existing (key : String) (st : OptState) (e : InflightEntry)
    (hin : alookup st.inflight key = some e) :
    acquireKey key st =
      (.attached e.outcomeId,
       { st with stats := { st.stats with dedupAttaches := st.stats.dedupAttaches + 1 } }) := by
  simp [acquireKey, hin]

theorem optStartKey_skip (key : String) (now : Nat) (st : OptState) :
    optStartKey key true now st = acquireKey key st := rfl

theorem optStartKey_hit (key : String) (now : Nat) (st : OptState) (e : CacheEntry)
    (hlook : alookup st.cache key = some e) (hvalid : cacheValid e now = true) :
    optStartKey key false now st =
      (.cached e.value,
       { st with stats := { st.stats with hits := st.stats.hits + 1 } }) := by
  simp [optStartKey, cacheGet, hlook, hvalid]

theorem optStartKey_absent (key : String) (now : Nat) (st : OptState)
    (hlook : alookup st.cache key = none) :
    optStartKey key false now st =
      acquireKey key
        { st with stats := { st.stats with misses := st.stats.misses + 1 } } := by
  simp [optStartKey, cacheGet, hlook]

theorem optStartKey_expired (key : String) (now : Nat) (st : OptState) (e : CacheEntry)
    (hlook : alookup st.cache key = some e) (hexp : cacheValid e now = false) :
    optStartKey key false now st =
      acquireKey key
        { st with cache := aremove st.cache key,
                  stats := { st.stats with misses := st.stats.misses + 1 } } := by
  simp [optStartKey, cacheGet, hlook, hexp]

theorem optSettle_ok (key : String) (skipCache : Bool) (ttl v now : Nat) (st : OptState)
    (e : InflightEntry) (hin : alookup st.inflight key = some e) :
    optSettle key skipCache ttl (.ok v) now st =
      (if skipCache then
        { st with inflight := aremove st.inflight key,
                  settled := (e.outcomeId, .ok v) :: st.settled }
      else
        { st with inflight := aremove st.inflight key,
                  settled := (e.outcomeId, .ok v) :: st.settled,
                  cache := cacheSet st.cache key v ttl now }) := by
  cases skipCache <;> simp [optSettle, hin]

theorem optSettle_error (key : String) (skipCache : Bool) (ttl : Nat) (err : ApiError)
    (now : Nat) (st : OptState) (e : InflightEntry)
    (hin : alookup st.inflight key = some e) :
    optSettle key skipCache ttl (.error err) now st =
      { st with inflight := aremove st.inflight key,
                settled := (e.outcomeId, .error err) :: st.settled,
                stats := { st.stats with errors := st.stats.errors + 1 } } := by
  simp [optSettle, hin]

theorem debounceCall_new (key : String) (fn d : Nat) (st : OptState)
    (hno : alookup st.debounce key = none) :
    debounceCall key fn d st =
      (st.nextId,
       { st with debounce := (key, ⟨st.nextId + 1, fn, st.nextId⟩) :: st.debounce,
                 nextId := st.nextId + 2 }) := by
  simp [debounceCall, hno]

theorem debounceCall_existing (key : String) (fn d : Nat) (st : OptState)
    (e : DebounceEntry) (hin : alookup st.debounce key = some e) :
    debounceCall key fn d st =
      (e.outcomeId,
       { st with debounce := ainsert st.debounce key ⟨st.nextId, fn, e.outcomeId⟩,
                 nextId := st.nextId + 1,
                 stats := { st.stats with
                              debounceCoalesces := st.stats.debounceCoalesces + 1 } }) := by
  simp [debounceCall, hin]

theorem debounceFire_entry (key : String) (fnResult : Nat → CallResult) (st : OptState)
    (e : DebounceEntry) (hin : alookup st.debounce key = some e) :
    debounceFire key fnResult st =
      { st with debounce := aremove st.debounce key,
                execLog := st.execLog ++ [e.latestFn],
                settled := (e.outcomeId, fnResult e.latestFn) :: st.settled } := by
  simp [debounceFire, hin]

theorem outcomeResult_settled_head (st : OptState) (oid : Nat) (res : CallResult)
    (rest : List (Nat × CallResult)) (h : st.settled = (oid, res) :: rest) :
    outcomeResult st oid = some res := by
  simp [outcomeResult, h, alookup_cons]

/-! ### Key Builder lemmas -/

theorem presentParams_keys_sublist (params : List (String × Option Prim)) :
    ((presentParams params).map Prod.fst).Sublist (params.map Prod.fst) := by
  induction params with
  | nil => simp [presentParams]
  | cons p rest ih =>
    cases h : p.2 with
    | none =>
        simp only [presentParams, List.filterMap_cons, h, Option.map_none', List.map_cons]
        exact ih.cons p.1
    | some v =>
        simp only [presentParams, List.filterMap_cons, h, Option.map_some', List.map_cons]
        exact ih.cons₂ p.1

theorem sortedParams_eq_of_perm (p q : List (String × Option Prim))
    (hperm : p.Perm q) (hnodup : (p.map Prod.fst).Nodup) :
    (presentParams p).insertionSort keyLe = (presentParams q).insertionSort keyLe := by
  have hpresent : (presentParams p).Perm (presentParams q) := hperm.filterMap _
  have hkeysP : ((presentParams p).map Prod.fst).Nodup :=
    hnodup.sublist (presentParams_keys_sublist p)
  have hsp : ((presentParams p).insertionSort keyLe).Perm
      ((presentParams q).insertionSort keyLe) :=
    (List.perm_insertionSort keyLe _).trans
      (hpresent.trans (List.perm_insertionSort keyLe _).symm)
  have hsorted1 : ((presentParams p).insertionSort keyLe).Pairwise keyLe :=
    List.sorted_insertionSort keyLe _
  have hsorted2 : ((presentParams q).insertionSort keyLe).Pairwise keyLe :=
    List.sorted_insertionSort keyLe _
  have hkeys1 : (((presentParams p).insertionSort keyLe).map Prod.fst).Nodup :=
    (((List.perm_insertionSort keyLe (presentParams p)).map Prod.fst).nodup_iff).mpr hkeysP
  have hkeys2 : (((presentParams q).insertionSort keyLe).map Prod.fst).Nodup := by
    refine (((List.perm_insertionSort keyLe (presentParams q)).map Prod.fst).nodup_iff).mpr ?_
    exact ((hpresent.map Prod.fst).nodup_iff).mp hkeysP
  have hne1 : ((presentParams p).insertionSort keyLe).Pairwise
      (fun a b => a.1 ≠ b.1) := List.pairwise_map.mp hkeys1
  have hne2 : ((presentParams q).insertionSort keyLe).Pairwise
      (fun a b => a.1 ≠ b.1) := List.pairwise_map.mp hkeys2
  have hlt1 : ((presentParams p).insertionSort keyLe).Pairwise keyLt :=
    (hsorted1.and hne1).imp (fun h => lt_of_le_of_ne h.1 h.2)
  have hlt2 : ((presentParams q).insertionSort keyLe).Pairwise keyLt :=
    (hsorted2.and hne2).imp (fun h => lt_of_le_of_ne h.1 h.2)
  exact List.eq_of_perm_of_sorted hsp hlt1 hlt2

/-- C6: for every endpoint and every pair of parameter maps with the same
entries in any insertion order (null/absent values omitted, parameter names
unique), buildKey produces the identical key string; buildKey is a pure total
function.  In particular buildKey \x22E\x22 with a=1,b=2 equals buildKey
\x22E\x22 with b=2,a=1. -/
theorem C6_key_canonicalization (endpoint : String) (p q : List (String × Option Prim))
    (hperm : p.Perm q) (hnodup : (p.map Prod.fst).Nodup) :
    buildKey endpoint p = buildKey endpoint q := by
  have h := sortedParams_eq_of_perm p q hperm hnodup
  simp only [buildKey, h]

/-- Witness for C6: the two-parameter example of the spec, with the two
insertion orders a=1,b=2 and b=2,a=1 producing the identical key. -/
theorem C6_key_canonicalization_witness :
    buildKey "E" [("a", some (.int 1)), ("b", some (.int 2))] =
      buildKey "E" [("b", some (.int 2)), ("a", some (.int 1))] :=
  C6_key_canonicalization "E" _ _ (by decide) (by decide)

/-! ### Claim theorems -/

/-- C1: if optimizedRequest is invoked a second time for the same endpoint and
parameter map while the first invocation with the same key is still in flight,
the second caller attaches (isNew = false) to the very same outcome handle,
exactly one transport call occurs for that key during the overlap window, and
both callers observe the identical settled result. -/
theorem C1_dedup_concurrent (endpoint : String) (params : List (String × Option Prim))
    (st : OptState) (now1 now2 now3 ttl : Nat) (res : CallResult)
    (hmiss : alookup st.cache (buildKey endpoint params) = none)
    (hnoflight : alookup st.inflight (buildKey endpoint params) = none) :
    (optStart endpoint params false now1 st).1 = .issued st.nextId ∧
    (optStart endpoint params false now2
        (optStart endpoint params false now1 st).2).1 = .attached st.nextId ∧
    (optStart endpoint params false now2
        (optStart endpoint params false now1 st).2).2.transportLog
      = st.transportLog ++ [buildKey endpoint params] ∧
    outcomeResult
      (optSettle (buildKey endpoint params) false ttl res now3
        (optStart endpoint params false now2
          (optStart endpoint params false now1 st).2).2)
      st.nextId = some res := by
  cases res with
  | ok v =>
      simp [optStart, optStartKey, cacheGet, acquireKey, optSettle, outcomeResult,
            hmiss, hnoflight, alookup_cons]
  | error e =>
      simp [optStart, optStartKey, cacheGet, acquireKey, optSettle, outcomeResult,
            hmiss, hnoflight, alookup_cons]

/-- Witness for C1: a fresh optimizer, endpoint E with no parameters, result 7. -/
theorem C1_dedup_concurrent_witness :
    (optStart "E" [] false 0 initState).1 = .issued 0 ∧
    (optStart "E" [] false 0 (optStart "E" [] false 0 initState).2).1 = .attached 0 ∧
    (optStart "E" [] false 0 (optStart "E" [] false 0 initState).2).2.transportLog
      = [buildKey "E" []] ∧
    outcomeResult
      (optSettle (buildKey "E" []) false 5 (.ok 7) 0
        (optStart "E" [] false 0 (optStart "E" [] false 0 initState).2).2) 0
      = some (.ok 7) :=
  C1_dedup_concurrent "E" [] initState 0 0 0 5 (.ok 7) rfl rfl

/-- C2: after set(k, v, T) at time storedAt, a get before the TTL elapses
returns v and an optimizedRequest hitting the entry returns it as a cache hit
with zero transport calls; a get after the TTL treats the entry as absent,
counts a miss, and a subsequent request issues a new transport call. -/
theorem C2_ttl_cache (st : OptState) (c0 : List (String × CacheEntry)) (k : String)
    (v ttl storedAt now1 now2 : Nat)
    (hfresh : now1 < storedAt + ttl) (hstale : storedAt + ttl < now2)
    (hlook : alookup st.cache k = some ⟨v, storedAt, ttl⟩)
    (hnoflight : alookup st.inflight k = none) :
    alookup (cacheSet c0 k v ttl storedAt) k = some ⟨v, storedAt, ttl⟩ ∧
    (cacheGet st.cache k now1).1 = some v ∧
    (cacheGet st.cache k now2).1 = none ∧
    (optStartKey k false now1 st).1 = .cached v ∧
    (optStartKey k false now1 st).2.transportLog = st.transportLog ∧
    (optStartKey k false now1 st).2.stats.hits = st.stats.hits + 1 ∧
    (optStartKey k false now2 st).1 = .issued st.nextId ∧
    (optStartKey k false now2 st).2.stats.misses = st.stats.misses + 1 ∧
    (optStartKey k false now2 st).2.transportLog = st.transportLog ++ [k] := by
  have hvalid : cacheValid ⟨v, storedAt, ttl⟩ now1 = true := by
    simp only [cacheValid, decide_eq_true_eq]
    exact hfresh
  have hexp : cacheValid ⟨v, storedAt, ttl⟩ now2 = false := by
    simp only [cacheValid, decide_eq_false_iff_not]
    omega
  refine ⟨?_, ?_, ?_, ?_, ?_, ?_, ?_, ?_, ?_⟩ <;>
    simp [cacheSet, alookup_ainsert, cacheGet, optStartKey, acquireKey,
          hlook, hvalid, hexp, hnoflight]

/-- Witness for C2: value 7 stored at time 10 with TTL 5, read at 12 and 20. -/
theorem C2_ttl_cache_witness :
    alookup (cacheSet [] "k" 7 5 10) "k" = some ⟨7, 10, 5⟩ ∧
    (cacheGet [("k", ⟨7, 10, 5⟩)] "k" 12).1 = some 7 ∧
    (cacheGet [("k", ⟨7, 10, 5⟩)] "k" 20).1 = none ∧
    (optStartKey "k" false 12 { initState with cache := [("k", ⟨7, 10, 5⟩)] }).1 = .cached 7 ∧
    (optStartKey "k" false 12 { initState with cache := [("k", ⟨7, 10, 5⟩)] }).2.transportLog
      = [] ∧
    (optStartKey "k" false 12 { initState with cache := [("k", ⟨7, 10, 5⟩)] }).2.stats.hits
      = 1 ∧
    (optStartKey "k" false 20 { initState with cache := [("k", ⟨7, 10, 5⟩)] }).1 = .issued 0 ∧
    (optStartKey "k" false 20 { initState with cache := [("k", ⟨7, 10, 5⟩)] }).2.stats.misses
      = 1 ∧
    (optStartKey "k" false 20 { initState with cache := [("k", ⟨7, 10, 5⟩)] }).2.transportLog
      = ["k"] :=
  C2_ttl_cache { initState with cache := [("k", ⟨7, 10, 5⟩)] } [] "k" 7 5 10 12 20
    (by decide) (by decide) (by decide) rfl

/-- C3: two debouncedRequest calls for the same key within one window share
the same outcome handle; when the timer fires exactly the most recently
recorded function runs (the first is discarded unexecuted), every attached
caller receives its result, the entry is cleared, and a later call starts a
brand-new cycle with a fresh outcome. -/
theorem C3_debounce_coalescing (st : OptState) (k : String) (fn1 fn2 fn3 d : Nat)
    (fnResult : Nat → CallResult)
    (hno : alookup st.debounce k = none) :
    (debounceCall k fn1 d st).1 = st.nextId ∧
    (debounceCall k fn2 d (debounceCall k fn1 d st).2).1 = st.nextId ∧
    (debounceFire k fnResult (debounceCall k fn2 d (debounceCall k fn1 d st).2).2).execLog
      = st.execLog ++ [fn2] ∧
    outcomeResult
      (debounceFire k fnResult (debounceCall k fn2 d (debounceCall k fn1 d st).2).2)
      st.nextId = some (fnResult fn2) ∧
    alookup (debounceFire k fnResult
        (debounceCall k fn2 d (debounceCall k fn1 d st).2).2).debounce k = none ∧
    (debounceCall k fn3 d
        (debounceFire k fnResult (debounceCall k fn2 d (debounceCall k fn1 d st).2).2)).1
      ≠ st.nextId := by
  refine ⟨?_, ?_, ?_, ?_, ?_, ?_⟩ <;>
    simp [debounceCall, debounceFire, outcomeResult, hno, alookup_cons,
          alookup_ainsert, alookup_aremove]
  omega

/-- Witness for C3: a fresh optimizer, functions 1 then 2 within the window,
then function 3 in a later cycle. -/
theorem C3_debounce_coalescing_witness :
    (debounceCall "k" 1 300 initState).1 = 0 ∧
    (debounceCall "k" 2 300 (debounceCall "k" 1 300 initState).2).1 = 0 ∧
    (debounceFire "k" (fun n => .ok n)
        (debounceCall "k" 2 300 (debounceCall "k" 1 300 initState).2).2).execLog = [2] ∧
    outcomeResult
      (debounceFire "k" (fun n => .ok n)
        (debounceCall "k" 2 300 (debounceCall "k" 1 300 initState).2).2) 0
      = some (.ok 2) ∧
    alookup (debounceFire "k" (fun n => .ok n)
        (debounceCall "k" 2 300 (debounceCall "k" 1 300 initState).2).2).debounce "k"
      = none ∧
    (debounceCall "k" 3 300
        (debounceFire "k" (fun n => .ok n)
          (debounceCall "k" 2 300 (debounceCall "k" 1 300 initState).2).2)).1 ≠ 0 :=
  C3_debounce_coalescing initState "k" 1 2 3 300 (fun n => .ok n) rfl

/-- C4: with skipCache the cache store read is bypassed, so a transport call
is issued even though a valid cache entry exists; two simultaneous skipCache
requests for the key still deduplicate to one transport call; and on success
the result is written to the Cache Store only when skipCache is false. -/
theorem C4_skipCache (st : OptState) (k : String) (e : CacheEntry)
    (now1 now2 now3 ttl v : Nat)
    (_hvalidEntry : alookup st.cache k = some e ∧ cacheValid e now1 = true)
    (hnoflight : alookup st.inflight k = none) :
    (optStartKey k true now1 st).1 = .issued st.nextId ∧
    (optStartKey k true now2 (optStartKey k true now1 st).2).1 = .attached st.nextId ∧
    (optStartKey k true now2 (optStartKey k true now1 st).2).2.transportLog
      = st.transportLog ++ [k] ∧
    (optSettle k true ttl (.ok v) now3
        (optStartKey k true now2 (optStartKey k true now1 st).2).2).cache = st.cache ∧
    (optSettle k false ttl (.ok v) now3
        (optStartKey k true now2 (optStartKey k true now1 st).2).2).cache
      = cacheSet st.cache k v ttl now3 := by
  refine ⟨?_, ?_, ?_, ?_, ?_⟩ <;>
    simp [optStartKey, acquireKey, optSettle, hnoflight, alookup_cons]

/-- Witness for C4: a valid entry for the key is present (stored at 0, TTL
100, read at 1) and is bypassed. -/
theorem C4_skipCache_witness :
    (optStartKey "k" true 1 { initState with cache := [("k", ⟨9, 0, 100⟩)] }).1
      = .issued 0 ∧
    (optStartKey "k" true 2 (optStartKey "k" true 1
        { initState with cache := [("k", ⟨9, 0, 100⟩)] }).2).1 = .attached 0 ∧
    (optStartKey "k" true 2 (optStartKey "k" true 1
        { initState with cache := [("k", ⟨9, 0, 100⟩)] }).2).2.transportLog = ["k"] ∧
    (optSettle "k" true 50 (.ok 7) 3
        (optStartKey "k" true 2 (optStartKey "k" true 1
          { initState with cache := [("k", ⟨9, 0, 100⟩)] }).2).2).cache
      = [("k", ⟨9, 0, 100⟩)] ∧
    (optSettle "k" false 50 (.ok 7) 3
        (optStartKey "k" true 2 (optStartKey "k" true 1
          { initState with cache := [("k", ⟨9, 0, 100⟩)] }).2).2).cache
      = cacheSet [("k", ⟨9, 0, 100⟩)] "k" 7 50 3 :=
  C4_skipCache { initState with cache := [("k", ⟨9, 0, 100⟩)] } "k" ⟨9, 0, 100⟩
    1 2 3 50 7 ⟨by decide, by decide⟩ rfl

/-- C5: when the transport call for a key fails, every waiter attached to the
shared outcome — whether through dedup or through a debounce window — observes
the same error, the cache is left unchanged, the in-flight entry is removed,
and the very next call for the key starts a clean attempt with a fresh
transport call. -/
theorem C5_error_propagation (st st0 : OptState) (k k0 : String) (e : InflightEntry)
    (ed : DebounceEntry) (skipC : Bool) (ttl now now2 : Nat) (err : ApiError)
    (fnRes : Nat → CallResult)
    (hin : alookup st.inflight k = some e)
    (hmiss : alookup st.cache k = none)
    (hdeb : alookup st0.debounce k0 = some ed)
    (hfnerr : fnRes ed.latestFn = .error err) :
    outcomeResult (optSettle k skipC ttl (.error err) now st) e.outcomeId
      = some (.error err) ∧
    (optSettle k skipC ttl (.error err) now st).cache = st.cache ∧
    alookup (optSettle k skipC ttl (.error err) now st).inflight k = none ∧
    (optStartKey k false now2 (optSettle k skipC ttl (.error err) now st)).1
      = .issued st.nextId ∧
    (optStartKey k false now2 (optSettle k skipC ttl (.error err) now st)).2.transportLog
      = st.transportLog ++ [k] ∧
    outcomeResult (debounceFire k0 fnRes st0) ed.outcomeId = some (.error err) ∧
    (debounceFire k0 fnRes st0).cache = st0.cache := by
  refine ⟨?_, ?_, ?_, ?_, ?_, ?_, ?_⟩ <;>
    simp [optSettle, optStartKey, cacheGet, acquireKey, outcomeResult, debounceFire,
          hin, hmiss, hdeb, hfnerr, alookup_cons, alookup_aremove]

/-- Witness for C5: one in-flight waiter for key k and one attached debounce
caller for key d, both failed with a network error. -/
theorem C5_error_propagation_witness :
    outcomeResult
      (optSettle "k" false 5 (.error .network) 0
        { initState with inflight := [("k", ⟨0⟩)], nextId := 1 }) 0
      = some (.error .network) ∧
    (optSettle "k" false 5 (.error .network) 0
        { initState with inflight := [("k", ⟨0⟩)], nextId := 1 }).cache = [] ∧
    alookup (optSettle "k" false 5 (.error .network) 0
        { initState with inflight := [("k", ⟨0⟩)], nextId := 1 }).inflight "k" = none ∧
    (optStartKey "k" false 1 (optSettle "k" false 5 (.error .network) 0
        { initState with inflight := [("k", ⟨0⟩)], nextId := 1 })).1 = .issued 1 ∧
    (optStartKey "k" false 1 (optSettle "k" false 5 (.error .network) 0
        { initState with inflight := [("k", ⟨0⟩)], nextId := 1 })).2.transportLog = ["k"] ∧
    outcomeResult
      (debounceFire "d" (fun _ => .error .network)
        { initState with debounce := [("d", ⟨1, 4, 0⟩)], nextId := 2 }) 0
      = some (.error .network) ∧
    (debounceFire "d" (fun _ => .error .network)
        { initState with debounce := [("d", ⟨1, 4, 0⟩)], nextId := 2 }).cache = [] :=
  C5_error_propagation { initState with inflight := [("k", ⟨0⟩)], nextId := 1 }
    { initState with debounce := [("d", ⟨1, 4, 0⟩)], nextId := 2 } "k" "d"
    ⟨0⟩ ⟨1, 4, 0⟩ false 5 0 1 .network (fun _ => .error .network) rfl rfl rfl rfl

/-- C7: every failure of optimizedRequest is classified as a network, timeout
or server error; a timeout is distinguishable from both other classes; and a
call exceeding its timeout fails the shared in-flight outcome for all attached
waiters with the timeout error, removes the in-flight entry, and allows an
immediate retry with a fresh transport call. -/
theorem C7_timeout_taxonomy (st : OptState) (k : String) (e : InflightEntry)
    (skipC : Bool) (ttl now now2 status : Nat) (msg : String) (err : ApiError)
    (hin : alookup st.inflight k = some e)
    (hmiss : alookup st.cache k = none) :
    (errorClass err = "network" ∨ errorClass err = "timeout" ∨
      errorClass err = "server") ∧
    errorClass .timeout ≠ errorClass .network ∧
    errorClass .timeout ≠ errorClass (.server status msg) ∧
    outcomeResult (optSettle k skipC ttl (.error .timeout) now st) e.outcomeId
      = some (.error .timeout) ∧
    alookup (optSettle k skipC ttl (.error .timeout) now st).inflight k = none ∧
    (optStartKey k false now2 (optSettle k skipC ttl (.error .timeout) now st)).1
      = .issued st.nextId ∧
    (optStartKey k false now2 (optSettle k skipC ttl (.error .timeout) now st)).2.transportLog
      = st.transportLog ++ [k] := by
  refine ⟨?_, ?_, ?_, ?_, ?_, ?_, ?_⟩
  · cases err with
    | network => exact Or.inl rfl
    | timeout => exact Or.inr (Or.inl rfl)
    | server s m => exact Or.inr (Or.inr rfl)
  all_goals
    simp [errorClass, optSettle, optStartKey, cacheGet, acquireKey, outcomeResult,
          hin, hmiss, alookup_cons, alookup_aremove]

/-- Witness for C7: a single waiter for key k whose transport call times out. -/
theorem C7_timeout_taxonomy_witness :
    (errorClass .network = "network" ∨ errorClass .network = "timeout" ∨
      errorClass .network = "server") ∧
    errorClass .timeout ≠ errorClass .network ∧
    errorClass .timeout ≠ errorClass (.server 500 "boom") ∧
    outcomeResult
      (optSettle "k" false 5 (.error .timeout) 0
        { initState with inflight := [("k", ⟨0⟩)], nextId := 1 }) 0
      = some (.error .timeout) ∧
    alookup (optSettle "k" false 5 (.error .timeout) 0
        { initState with inflight := [("k", ⟨0⟩)], nextId := 1 }).inflight "k" = none ∧
    (optStartKey "k" false 1 (optSettle "k" false 5 (.error .timeout) 0
        { initState with inflight := [("k", ⟨0⟩)], nextId := 1 })).1 = .issued 1 ∧
    (optStartKey "k" false 1 (optSettle "k" false 5 (.error .timeout) 0
        { initState with inflight := [("k", ⟨0⟩)], nextId := 1 })).2.transportLog
      = ["k"] :=
  C7_timeout_taxonomy { initState with inflight := [("k", ⟨0⟩)], nextId := 1 }
    "k" ⟨0⟩ false 5 0 1 500 "boom" .network rfl rfl

/-- C8: invalidateCache removes exactly the cache entries whose key matches
the pattern — a trailing-wildcard pattern such as foo* matches exactly the
keys starting with foo — leaves every non-matching entry retrievable, never
raises an error, and leaves the in-flight and debounce registries and the
stats untouched. -/
theorem C8_invalidate_pattern (st : OptState) (pat k k2 s : String)
    (hmatch : patternMatches pat k = true)
    (hnomatch : patternMatches pat k2 = false) :
    alookup (invalidateCache pat st).cache k = none ∧
    alookup (invalidateCache pat st).cache k2 = alookup st.cache k2 ∧
    (invalidateCache pat st).inflight = st.inflight ∧
    (invalidateCache pat st).debounce = st.debounce ∧
    (invalidateCache pat st).stats = st.stats ∧
    patternMatches "foo*" s = List.isPrefixOf "foo".toList s.toList := by
  refine ⟨?_, ?_, rfl, rfl, rfl, ?_⟩
  · rw [show (invalidateCache pat st).cache = cacheInvalidate st.cache pat from rfl,
        cacheInvalidate, alookup_filter_key, hmatch]
    simp
  · rw [show (invalidateCache pat st).cache = cacheInvalidate st.cache pat from rfl,
        cacheInvalidate, alookup_filter_key, hnomatch]
    simp
  · rw [patternMatches, if_pos (by decide),
        show ("foo*".toList.dropLast) = "foo".toList from by decide]

/-- Witness for C8: a cache holding foo1 and bar, invalidated with foo*. -/
theorem C8_invalidate_pattern_witness :
    alookup (invalidateCache "foo*"
        { initState with cache := [("foo1", ⟨1, 0, 9⟩), ("bar", ⟨2, 0, 9⟩)] }).cache "foo1"
      = none ∧
    alookup (invalidateCache "foo*"
        { initState with cache := [("foo1", ⟨1, 0, 9⟩), ("bar", ⟨2, 0, 9⟩)] }).cache "bar"
      = alookup [("foo1", (⟨1, 0, 9⟩ : CacheEntry)), ("bar", ⟨2, 0, 9⟩)] "bar" ∧
    (invalidateCache "foo*"
        { initState with cache := [("foo1", ⟨1, 0, 9⟩), ("bar", ⟨2, 0, 9⟩)] }).inflight
      = [] ∧
    (invalidateCache "foo*"
        { initState with cache := [("foo1", ⟨1, 0, 9⟩), ("bar", ⟨2, 0, 9⟩)] }).debounce
      = [] ∧
    (invalidateCache "foo*"
        { initState with cache := [("foo1", ⟨1, 0, 9⟩), ("bar", ⟨2, 0, 9⟩)] }).stats
      = Stats.zero ∧
    patternMatches "foo*" "foobar" = List.isPrefixOf "foo".toList "foobar".toList :=
  C8_invalidate_pattern
    { initState with cache := [("foo1", ⟨1, 0, 9⟩), ("bar", ⟨2, 0, 9⟩)] }
    "foo*" "foo1" "bar" "foobar" (by decide) (by decide)

/-- C9: after reset the stats snapshot is all-zero, the cache, in-flight and
debounce stores are empty, and a subsequent request for any previously-cached
key is a cache miss issuing a fresh transport call. -/
theorem C9_reset (st : OptState) (k : String) (now : Nat) :
    getStats (reset st) = Stats.zero ∧
    (reset st).cache = [] ∧
    (reset st).inflight = [] ∧
    (reset st).debounce = [] ∧
    (optStartKey k false now (reset st)).1 = .issued st.nextId ∧
    (optStartKey k false now (reset st)).2.stats.misses = 1 ∧
    (optStartKey k false now (reset st)).2.transportLog = st.transportLog ++ [k] := by
  refine ⟨rfl, rfl, rfl, rfl, ?_, ?_, ?_⟩ <;>
    simp [reset, getStats, optStartKey, cacheGet, acquireKey, alookup, Stats.zero]

/-- C10: two sendChatMessage calls with the same session and user within one
debounce window use the key chat_SESSION_USER, which does not include the
message, so they coalesce onto the same outcome even with different messages:
only the most recently supplied message is executed when the timer fires, the
earlier one is discarded unsent, and both callers receive the single response
to the latest message. -/
theorem C10_chat_debounce_key (st : OptState) (m1 m2 : Nat) (sid uid : String)
    (fnResult : Nat → CallResult)
    (hno : alookup st.debounce (chatDebounceKey sid uid) = none) :
    chatDebounceKey sid uid = "chat_" ++ sid ++ "_" ++ uid ∧
    (sendChatMessage m1 sid uid st).1 = st.nextId ∧
    (sendChatMessage m2 sid uid (sendChatMessage m1 sid uid st).2).1 = st.nextId ∧
    (debounceFire (chatDebounceKey sid uid) fnResult
        (sendChatMessage m2 sid uid (sendChatMessage m1 sid uid st).2).2).execLog
      = st.execLog ++ [m2] ∧
    outcomeResult
      (debounceFire (chatDebounceKey sid uid) fnResult
        (sendChatMessage m2 sid uid (sendChatMessage m1 sid uid st).2).2)
      st.nextId = some (fnResult m2) := by
  refine ⟨rfl, ?_, ?_, ?_, ?_⟩ <;>
    simp [sendChatMessage, debounceCall, debounceFire, outcomeResult, hno,
          alookup_cons, alookup_ainsert]

/-- Witness for C10: messages 1 then 2 for session s and user u on a fresh
optimizer; only message 2 executes and settles the shared outcome. -/
theorem C10_chat_debounce_key_witness :
    chatDebounceKey "s" "u" = "chat_" ++ "s" ++ "_" ++ "u" ∧
    (sendChatMessage 1 "s" "u" initState).1 = 0 ∧
    (sendChatMessage 2 "s" "u" (sendChatMessage 1 "s" "u" initState).2).1 = 0 ∧
    (debounceFire (chatDebounceKey "s" "u") (fun n => .ok n)
        (sendChatMessage 2 "s" "u" (sendChatMessage 1 "s" "u" initState).2).2).execLog
      = [2] ∧
    outcomeResult
      (debounceFire (chatDebounceKey "s" "u") (fun n => .ok n)
        (sendChatMessage 2 "s" "u" (sendChatMessage 1 "s" "u" initState).2).2) 0
      = some (.ok 2) :=
  C10_chat_debounce_key initState 1 2 "s" "u" (fun n => .ok n) rfl
